import Mathlib

/-!
Shallow embedding of `src/scripts/scripts/cleanup_registry.py` (class
`RegistryCleanup` and its helpers).

The Python client talks to a Docker Registry v2 over four HTTP endpoints.
We model the registry and the interactive console as an explicit
environment `Env`: for each endpoint the environment says how the single
request the code can make there turns out.  The environment is fixed for
one run (the registry does not change between the calls of a run).

The per-request outcomes mirror what `_make_request` can produce:
  * a 2xx response (`ok`) — `response.raise_for_status()` passed; for the
    two listing endpoints we record directly the list extracted from the
    JSON body (`data.get('repositories', [])` / `data.get('tags', [])`),
    since a missing or null field and a JSON decode error all behave as
    the empty list in the callers;
  * an HTTP error status (`httpError`) — `raise_for_status()` raised
    `requests.exceptions.HTTPError` carrying the status;
  * a non-HTTP request failure (`netError`) — e.g. a connection error,
    raised as a `RequestException` that is not an `HTTPError`.

Exceptions that the Python code lets escape are modelled with
`Except Nat`, the `Nat` being the HTTP status of the propagated
`HTTPError` (the only exception the modelled paths re-raise).

Every operation also returns the list of HTTP requests it attempted, so
that claims about side effects (e.g. "zero DELETE calls in dry-run mode")
are statements about that request trace.
-/

set_option autoImplicit false

deriving instance DecidableEq for Except

namespace RegCleanup

/-- Outcome of a `GET` on a listing endpoint (`/_catalog` or
`/{repo}/tags/list`): the extracted list on 2xx, or a failure. -/
inductive ListOutcome where
  | ok (items : List String)
  | httpError (status : Nat)
  | netError
deriving DecidableEq

/-- Outcome of a `HEAD /{repo}/manifests/{tag}` probe: on 2xx the value of
the `Docker-Content-Digest` response header (if present), or a failure. -/
inductive HeadOutcome where
  | ok (digest : Option String)
  | httpError (status : Nat)
  | netError
deriving DecidableEq

/-- Outcome of a `DELETE /{repo}/manifests/{digest}` call: the status code
on a non-error response, or a failure raised by `raise_for_status()`. -/
inductive DeleteOutcome where
  | ok (status : Nat)
  | httpError (status : Nat)
  | netError
deriving DecidableEq

/-- The registry and console as seen by one run of the client.
`manifestHead` takes repository, tag and the `Accept` media type;
`confirmInput` is what `input()` returns at the confirmation prompt. -/
structure Env where
  catalog : ListOutcome
  tags : String → ListOutcome
  manifestHead : String → String → String → HeadOutcome
  manifestDelete : String → String → DeleteOutcome
  confirmInput : String

/-- One HTTP request attempted by the client, as recorded in the trace. -/
inductive Request where
  | getCatalog
  | getTags (repo : String)
  | headManifest (repo tag mediaType : String)
  | deleteManifest (repo digest : String)
deriving DecidableEq

/-- Whether a traced request is a manifest DELETE. -/
def Request.isDelete : Request → Bool
  | .deleteManifest _ _ => true
  | _ => false

/-- Number of DELETE requests in a trace. -/
def deleteCount (tr : List Request) : Nat :=
  (tr.filter Request.isDelete).length

/-- Docker schema2 manifest media type (line 111). -/
def schema2Type : String := "application/vnd.docker.distribution.manifest.v2+json"

/-- Docker schema1 manifest media type (line 112). -/
def schema1Type : String := "application/vnd.docker.distribution.manifest.v1+json"

/-- OCI manifest media type (line 113). -/
def ociType : String := "application/vnd.oci.image.manifest.v1+json"

/-- The manifest media types probed by `get_manifest_digest`, in source
order (lines 110–114): schema2, schema1, OCI. -/
def manifest_types : List String :=
  [schema2Type, schema1Type, ociType]

/-- `list_repositories` (lines 73–84): `GET /_catalog`; every failure is
caught (`except Exception`) and yields the empty list. -/
def list_repositories (env : Env) : List String × List Request :=
  (match env.catalog with
   | .ok items => items
   | .httpError _ => []
   | .netError => [],
   [Request.getCatalog])

/-- `list_tags` (lines 86–105): `GET /{repo}/tags/list`.  An
`HTTPError` with status 404 yields `[]`; any other `HTTPError` is
re-raised by the bare `raise` on line 102 (a handler's re-raise is not
caught by the later `except Exception` clause of the same `try`); any
non-HTTP failure is caught by `except Exception` and yields `[]`. -/
def list_tags (env : Env) (repo : String) : Except Nat (List String) × List Request :=
  (match env.tags repo with
   | .ok items => .ok items
   | .httpError s => if s = 404 then .ok [] else .error s
   | .netError => .ok [],
   [Request.getTags repo])

/-- The `for manifest_type in manifest_types` loop of
`get_manifest_digest` (lines 116–131).  For each media type: a 2xx
response with a non-empty `Docker-Content-Digest` header returns that
digest (`if digest:` — Python truthiness, so an absent or empty header
falls through); a 404 `HTTPError` and any non-HTTP failure `continue` to
the next type; any other `HTTPError` is re-raised (line 129). -/
def tryManifestTypes (env : Env) (repo tag : String) :
    List String → Except Nat (Option String) × List Request
  | [] => (.ok none, [])
  | t :: ts =>
    match env.manifestHead repo tag t with
    | .ok none =>
        let r := tryManifestTypes env repo tag ts
        (r.1, Request.headManifest repo tag t :: r.2)
    | .ok (some d) =>
        if d.isEmpty then
          let r := tryManifestTypes env repo tag ts
          (r.1, Request.headManifest repo tag t :: r.2)
        else
          (.ok (some d), [Request.headManifest repo tag t])
    | .httpError s =>
        if s = 404 then
          let r := tryManifestTypes env repo tag ts
          (r.1, Request.headManifest repo tag t :: r.2)
        else
          (.error s, [Request.headManifest repo tag t])
    | .netError =>
        let r := tryManifestTypes env repo tag ts
        (r.1, Request.headManifest repo tag t :: r.2)

/-- `get_manifest_digest` (lines 107–134): probe the three media types in
order; `.ok none` is Python's final `return None`. -/
def get_manifest_digest (env : Env) (repo tag : String) :
    Except Nat (Option String) × List Request :=
  tryManifestTypes env repo tag manifest_types

/-- `delete_manifest` (lines 136–152).  In dry-run mode, returns `True`
with no network call (lines 138–140).  Otherwise issues the DELETE;
status 202 or 204 is success, any other non-error status is failure, and
every exception is caught by `except Exception` and yields failure. -/
def delete_manifest (env : Env) (dryRun : Bool) (repo digest : String) :
    Bool × List Request :=
  if dryRun then (true, [])
  else
    (match env.manifestDelete repo digest with
     | .ok s => s == 202 || s == 204
     | .httpError _ => false
     | .netError => false,
     [Request.deleteManifest repo digest])

/-- The `for tag in tags` loop of `cleanup_repository` (lines 165–178),
with the two mutable counters as accumulators.  A digest lookup that
raises aborts the whole loop (the exception propagates); a digest lookup
returning `None` increments the failed counter and continues; otherwise
the deletion result decides which counter is incremented. -/
def processTags (env : Env) (dryRun : Bool) (repo : String) :
    List String → Nat → Nat → Except Nat (Nat × Nat) × List Request
  | [], deleted, failed => (.ok (deleted, failed), [])
  | tag :: rest, deleted, failed =>
    let dig := get_manifest_digest env repo tag
    match dig.1 with
    | .error s => (.error s, dig.2)
    | .ok none =>
        let r := processTags env dryRun repo rest deleted (failed + 1)
        (r.1, dig.2 ++ r.2)
    | .ok (some digest) =>
        let del := delete_manifest env dryRun repo digest
        let r :=
          if del.1 then processTags env dryRun repo rest (deleted + 1) failed
          else processTags env dryRun repo rest deleted (failed + 1)
        (r.1, dig.2 ++ del.2 ++ r.2)

/-- `cleanup_repository` (lines 154–181): list the tags (a re-raised
`HTTPError` from `list_tags` propagates), return `(0, 0)` immediately if
there are none, otherwise run the tag loop. -/
def cleanup_repository (env : Env) (dryRun : Bool) (repo : String) :
    Except Nat (Nat × Nat) × List Request :=
  let tagsR := list_tags env repo
  match tagsR.1 with
  | .error s => (.error s, tagsR.2)
  | .ok tags =>
    if tags.isEmpty then (.ok (0, 0), tagsR.2)
    else
      let r := processTags env dryRun repo tags 0 0
      (r.1, tagsR.2 ++ r.2)

/-!
Pattern matching, from `cleanup_repositories_by_pattern` (lines 192–196):

    regex_pattern = pattern.replace('*', '.*').replace('?', '.')
    regex = re.compile(f'^{regex_pattern}$')
    matching_repos = [repo for repo in repositories if regex.match(repo)]

The two `str.replace` calls have single-character needles, so they are
per-character rewrites over the pattern.  The produced regex is then
matched with Python semantics.  In the produced string every `*` is part
of an inserted `.*` pair (all original `*` were replaced), so the regex
consists only of literal characters, `.` atoms, and `.*` atoms — provided
the original pattern contains no regex metacharacter other than `.`, `*`
and `?` (no `+ ( ) [ ] { } | \ ^ $`); the embedding is exact on that
domain, which covers every pattern the claims mention.

Python regex semantics modelled faithfully:
  * `.` matches any character except a newline (no `re.DOTALL`);
  * `re.match` anchors at the start only; the trailing `$` of the
    compiled pattern matches at the end of the string **or just before a
    newline that ends the string**;
  * `re.fullmatch` (the spec's wording) requires the whole string to be
    consumed.
-/

/-- One atom of the compiled regular expression. -/
inductive Atom where
  | lit (c : Char)
  | dot
  | star
deriving DecidableEq

/-- `pattern.replace('*', '.*')`: the needle is one character, so this is
a per-character rewrite. -/
def replaceStar : List Char → List Char
  | [] => []
  | c :: cs => if c = '*' then '.' :: '*' :: replaceStar cs else c :: replaceStar cs

/-- `.replace('?', '.')` applied second. -/
def replaceQuestion : List Char → List Char
  | [] => []
  | c :: cs => if c = '?' then '.' :: replaceQuestion cs else c :: replaceQuestion cs

/-- `regex_pattern = pattern.replace('*', '.*').replace('?', '.')`
(line 193). -/
def regex_pattern (pattern : List Char) : List Char :=
  replaceQuestion (replaceStar pattern)

/-- Parse the produced regex string into atoms.  Every `*` in the string
arises from an inserted `.*`, so `. *` pairs are `star`, a lone `.` is
`dot`, everything else is a literal. -/
def parseRegex : List Char → List Atom
  | [] => []
  | '.' :: '*' :: cs => .star :: parseRegex cs
  | '.' :: cs => .dot :: parseRegex cs
  | c :: cs => .lit c :: parseRegex cs

/-- The suffix search performed by a `.*` atom: `.*` may swallow any
prefix of non-newline characters, after which the continuation `f` must
accept the remaining suffix. -/
def starSkip (f : List Char → Bool) : List Char → Bool
  | [] => f []
  | x :: xs => f (x :: xs) || (x != '\n' && starSkip f xs)

/-- `re.match` of the anchored pattern `^atoms$` against a string:
matching starts at position 0 and the final `$` accepts either the end of
the string or the position just before a newline that ends the string. -/
def matchAnch : List Atom → List Char → Bool
  | [], s => s.isEmpty || s == ['\n']
  | .lit c :: as, s =>
    match s with
    | [] => false
    | x :: xs => x == c && matchAnch as xs
  | .dot :: as, s =>
    match s with
    | [] => false
    | x :: xs => x != '\n' && matchAnch as xs
  | .star :: as, s => starSkip (matchAnch as) s

/-- `re.fullmatch` of the translated pattern against a string, as the
spec's words ("R fullmatches the glob-to-regex translation of P")
require: the atoms must consume the entire string. -/
def reFullmatch : List Atom → List Char → Bool
  | [], s => s.isEmpty
  | .lit c :: as, s =>
    match s with
    | [] => false
    | x :: xs => x == c && reFullmatch as xs
  | .dot :: as, s =>
    match s with
    | [] => false
    | x :: xs => x != '\n' && reFullmatch as xs
  | .star :: as, s => starSkip (reFullmatch as) s

/-- The suffix search performed by a shell `*`: it may swallow any prefix
(newlines included). -/
def globSkip (f : List Char → Bool) : List Char → Bool
  | [] => f []
  | x :: xs => f (x :: xs) || globSkip f xs

/-- Literal shell glob semantics (fnmatch-style), following the spec's
words: `*` matches any character sequence, `?` any single character, and
every other character — including `.` — only itself. -/
def specGlobMatch : List Char → List Char → Bool
  | [], s => s.isEmpty
  | '*' :: ps, s => globSkip (specGlobMatch ps) s
  | '?' :: ps, s =>
    match s with
    | [] => false
    | _ :: xs => specGlobMatch ps xs
  | c :: ps, s =>
    match s with
    | [] => false
    | x :: xs => x == c && specGlobMatch ps xs

/-- The repository filter of `cleanup_repositories_by_pattern`
(lines 193–196): compile `^{regex_pattern}$` and test with `regex.match`. -/
def regexMatches (pattern repo : String) : Bool :=
  matchAnch (parseRegex (regex_pattern pattern.data)) repo.data

/-- The `for repo in matching_repos` loop of
`cleanup_repositories_by_pattern` (lines 214–222): run
`cleanup_repository` on each matched repository in listed order,
recording per-repository results and accumulating the two totals.  An
exception from `cleanup_repository` propagates and discards the results
collected so far (the trace keeps the requests already made). -/
def processRepos (env : Env) (dryRun : Bool) :
    List String → Except Nat (List (String × Nat × Nat) × Nat × Nat) × List Request
  | [] => (.ok ([], 0, 0), [])
  | repo :: rest =>
    let r := cleanup_repository env dryRun repo
    match r.1 with
    | .error s => (.error s, r.2)
    | .ok (deleted, failed) =>
      let rr := processRepos env dryRun rest
      (match rr.1 with
       | .error s => .error s
       | .ok (results, td, tf) =>
           .ok ((repo, deleted, failed) :: results, deleted + td, failed + tf),
       r.2 ++ rr.2)

/-- `confirm.lower()` (line 210).  Python's `str.lower` lowercases each
character; for deciding equality with the ASCII word `yes` the per-char
ASCII lowering below agrees with it (no non-ASCII character lowercases to
`y`, `e` or `s`). -/
def pyLower (s : List Char) : List Char :=
  s.map Char.toLower

/-- `cleanup_repositories_by_pattern` (lines 183–229).  List all
repositories (any failure yields `[]`); return `{}` if the listing is
empty; filter by the pattern; return `{}` if nothing matches; if not in
dry-run mode, ask for confirmation and return `{}` unless the lowercased
input is exactly `yes`; otherwise clean each matched repository in order
and return the per-repository result mapping (an association list in
matched order — a Python dict with those insertion-ordered keys). -/
def cleanup_repositories_by_pattern (env : Env) (dryRun : Bool) (pattern : String) :
    Except Nat (List (String × Nat × Nat)) × List Request :=
  let repos := list_repositories env
  if repos.1.isEmpty then (.ok [], repos.2)
  else
    let matching := repos.1.filter (fun r => regexMatches pattern r)
    if matching.isEmpty then (.ok [], repos.2)
    else if !dryRun && pyLower env.confirmInput.data != "yes".data then (.ok [], repos.2)
    else
      let r := processRepos env dryRun matching
      (match r.1 with
       | .error s => .error s
       | .ok (results, _, _) => .ok results,
       repos.2 ++ r.2)

/-!  Derived notions used by the statements, and concrete environments
used to witness the theorems on explicit inputs.  -/

/-- Whether the digest lookup for `(repo, tag)` yields a digest (rather
than `None` or a propagated error). -/
def resolvesDigest (env : Env) (repo tag : String) : Bool :=
  match (get_manifest_digest env repo tag).1 with
  | .ok (some _) => true
  | _ => false

/-- The HEAD outcomes on which `get_manifest_digest` falls through to the
next media type: 404, a non-HTTP failure, a 2xx response without a
`Docker-Content-Digest` header, or one whose header is empty (Python's
`if digest:` is a truthiness test). -/
def headSkips (o : HeadOutcome) : Prop :=
  o = .httpError 404 ∨ o = .netError ∨ o = .ok none ∨ o = .ok (some "")

/-- Whether a character list ends with a newline (where Python's `$` may
match one position early). -/
def endsNewline : List Char → Bool
  | [] => false
  | [c] => c == '\n'
  | _ :: rest => endsNewline rest

/-- A small concrete registry used to evaluate the theorems on explicit
inputs: three catalogued repositories; `ghost` 404s on tag listing,
`empty` has no tags, `boom` answers 500 on tag listing, every other
repository has the single tag `latest`; digest lookups 404 on schema2 and
answer on schema1, except for `keep` whose manifest endpoint always
answers 500 and `nodigest` whose responses never carry a digest header;
deletions answer 202. -/
def wEnv : Env where
  catalog := .ok ["bdtemp-a", "bdtemp-b", "keep"]
  tags := fun r =>
    if r = "ghost" then .httpError 404
    else if r = "empty" then .ok []
    else if r = "boom" then .httpError 500
    else .ok ["latest"]
  manifestHead := fun r _ m =>
    if r = "keep" then .httpError 500
    else if r = "nodigest" then .ok none
    else if m = schema2Type then .httpError 404
    else if m = schema1Type then .ok (some "sha256:abc")
    else .netError
  manifestDelete := fun _ _ => .ok 202
  confirmInput := "yes"

/-- `wEnv` with a non-affirmative confirmation input. -/
def wEnvNo : Env :=
  { wEnv with confirmInput := "No" }

/-- A registry whose manifest endpoint answers 500 for the schema2 media
type and serves a digest for the other media types. -/
def cEnv500 : Env where
  catalog := .ok []
  tags := fun _ => .ok ["t"]
  manifestHead := fun _ _ m =>
    if m = schema2Type then .httpError 500 else .ok (some "sha256:x")
  manifestDelete := fun _ _ => .netError
  confirmInput := ""

/-- A registry whose manifest endpoint yields no digest for any media
type: 404 on schema2, a digest-less 2xx on schema1, a network failure on
OCI. -/
def skipEnv : Env where
  catalog := .ok []
  tags := fun _ => .ok ["t"]
  manifestHead := fun _ _ m =>
    if m = schema2Type then .httpError 404
    else if m = schema1Type then .ok none
    else .netError
  manifestDelete := fun _ _ => .netError
  confirmInput := ""

/-- A registry with varied DELETE outcomes, keyed by repository name. -/
def delEnv : Env where
  catalog := .ok []
  tags := fun _ => .ok []
  manifestHead := fun _ _ _ => .netError
  manifestDelete := fun r _ =>
    if r = "ok204" then .ok 204
    else if r = "ok200" then .ok 200
    else if r = "neterr" then .netError
    else .httpError 500
  confirmInput := ""

/-! ### Trace lemmas -/

theorem deleteCount_nil : deleteCount [] = 0 := rfl

theorem deleteCount_append (a b : List Request) :
    deleteCount (a ++ b) = deleteCount a + deleteCount b := by
  simp [deleteCount, List.filter_append]

theorem deleteCount_head_cons (repo tag m : String) (tr : List Request) :
    deleteCount (Request.headManifest repo tag m :: tr) = deleteCount tr := by
  simp [deleteCount, List.filter, Request.isDelete]

theorem deleteCount_getTags_cons (repo : String) (tr : List Request) :
    deleteCount (Request.getTags repo :: tr) = deleteCount tr := by
  simp [deleteCount, List.filter, Request.isDelete]

theorem deleteCount_getCatalog_cons (tr : List Request) :
    deleteCount (Request.getCatalog :: tr) = deleteCount tr := by
  simp [deleteCount, List.filter, Request.isDelete]

theorem list_repositories_snd (env : Env) :
    (list_repositories env).2 = [Request.getCatalog] := rfl

theorem list_tags_snd (env : Env) (repo : String) :
    (list_tags env repo).2 = [Request.getTags repo] := rfl

theorem deleteCount_tryManifestTypes (env : Env) (repo tag : String) (ts : List String) :
    deleteCount (tryManifestTypes env repo tag ts).2 = 0 := by
  induction ts with
  | nil => rfl
  | cons t ts ih =>
    simp only [tryManifestTypes]
    cases h : env.manifestHead repo tag t with
    | ok d =>
      cases d with
      | none => simpa [deleteCount_head_cons] using ih
      | some s =>
        by_cases hs : s.isEmpty <;>
          simp only [hs, if_true, if_false, Bool.false_eq_true,
            deleteCount_head_cons, deleteCount_nil, ih]
    | httpError s =>
      by_cases hs : s = 404 <;>
        simp only [hs, if_true, if_false, deleteCount_head_cons, deleteCount_nil, ih]
    | netError => simpa [deleteCount_head_cons] using ih

theorem deleteCount_get_manifest_digest (env : Env) (repo tag : String) :
    deleteCount (get_manifest_digest env repo tag).2 = 0 :=
  deleteCount_tryManifestTypes env repo tag manifest_types

theorem delete_manifest_dryRun (env : Env) (repo dig : String) :
    delete_manifest env true repo dig = (true, []) := rfl

theorem processTags_dryRun_no_deletes (env : Env) (repo : String) (tags : List String) :
    ∀ deleted failed, deleteCount (processTags env true repo tags deleted failed).2 = 0 := by
  induction tags with
  | nil => intro d f; rfl
  | cons tag rest ih =>
    intro d f
    simp only [processTags]
    cases h : (get_manifest_digest env repo tag).1 with
    | error s => simpa using deleteCount_get_manifest_digest env repo tag
    | ok o =>
      cases o with
      | none =>
        simp [deleteCount_append, deleteCount_get_manifest_digest, ih]
      | some g =>
        simp [delete_manifest_dryRun, deleteCount_append,
          deleteCount_get_manifest_digest, ih]

theorem cleanup_repository_dryRun_no_deletes (env : Env) (repo : String) :
    deleteCount (cleanup_repository env true repo).2 = 0 := by
  simp only [cleanup_repository]
  cases h : (list_tags env repo).1 with
  | error s =>
    simp only [list_tags_snd, deleteCount_getTags_cons, deleteCount_nil]
  | ok tags =>
    by_cases ht : tags.isEmpty <;>
      simp only [ht, if_true, if_false, Bool.false_eq_true, list_tags_snd,
        deleteCount_getTags_cons, deleteCount_nil, deleteCount_append,
        List.singleton_append, processTags_dryRun_no_deletes]

theorem processRepos_dryRun_no_deletes (env : Env) (repos : List String) :
    deleteCount (processRepos env true repos).2 = 0 := by
  induction repos with
  | nil => rfl
  | cons repo rest ih =>
    simp only [processRepos]
    cases h : (cleanup_repository env true repo).1 with
    | error s => simpa using cleanup_repository_dryRun_no_deletes env repo
    | ok p =>
      simp only [deleteCount_append, cleanup_repository_dryRun_no_deletes, ih]

theorem pattern_dryRun_no_deletes (env : Env) (pattern : String) :
    deleteCount (cleanup_repositories_by_pattern env true pattern).2 = 0 := by
  simp only [cleanup_repositories_by_pattern]
  by_cases h1 : (list_repositories env).1.isEmpty
  · simp only [h1, if_true, list_repositories_snd, deleteCount_getCatalog_cons,
      deleteCount_nil]
  · by_cases h2 : ((list_repositories env).1.filter (fun r => regexMatches pattern r)).isEmpty <;>
      simp only [h1, h2, if_true, if_false, Bool.false_eq_true, Bool.not_true,
        Bool.false_and, list_repositories_snd, deleteCount_getCatalog_cons,
        deleteCount_nil, deleteCount_append, List.singleton_append,
        processRepos_dryRun_no_deletes]

/-! ### Dry-run deleted counts -/

theorem processTags_dryRun_counts (env : Env) (repo : String) (tags : List String) :
    ∀ deleted failed D F,
      (processTags env true repo tags deleted failed).1 = .ok (D, F) →
      D = deleted + (tags.filter (fun t => resolvesDigest env repo t)).length := by
  induction tags with
  | nil =>
    intro d f D F h
    simp only [processTags] at h
    cases h
    simp
  | cons tag rest ih =>
    intro d f D F h
    simp only [processTags] at h
    cases hd : (get_manifest_digest env repo tag).1 with
    | error s => rw [hd] at h; cases h
    | ok o =>
      rw [hd] at h
      cases o with
      | none =>
        have : resolvesDigest env repo tag = false := by
          simp [resolvesDigest, hd]
        simp only at h
        have := ih d (f + 1) D F h
        simp [List.filter, this, resolvesDigest, hd]
      | some g =>
        have hres : resolvesDigest env repo tag = true := by
          simp [resolvesDigest, hd]
        simp only [delete_manifest_dryRun] at h
        have := ih (d + 1) f D F h
        simp [List.filter, this, hres]
        omega

/-- C1: For every repository and every tag set, when the client is
constructed with `dry_run` true, a full cleanup run (`cleanup_repository`
or `cleanup_repositories_by_pattern`) issues zero DELETE requests to the
registry, and the reported deleted count equals the number of tags for
which `get_manifest_digest` returned a digest (`delete_manifest` returns
success without any network call in dry-run mode). -/
theorem dryRun_no_deletes (env : Env) (repo pattern dig : String) :
    delete_manifest env true repo dig = (true, []) ∧
    deleteCount (cleanup_repository env true repo).2 = 0 ∧
    deleteCount (cleanup_repositories_by_pattern env true pattern).2 = 0 ∧
    (∀ D F, (cleanup_repository env true repo).1 = .ok (D, F) →
      ∃ tags, (list_tags env repo).1 = .ok tags ∧
        D = (tags.filter (fun t => resolvesDigest env repo t)).length) := by
  refine ⟨rfl, cleanup_repository_dryRun_no_deletes env repo,
    pattern_dryRun_no_deletes env pattern, ?_⟩
  intro D F h
  simp only [cleanup_repository] at h
  cases hl : (list_tags env repo).1 with
  | error s => rw [hl] at h; cases h
  | ok tags =>
    rw [hl] at h
    simp only at h
    refine ⟨tags, rfl, ?_⟩
    by_cases ht : tags.isEmpty
    · rw [if_pos ht] at h
      cases h
      rw [List.isEmpty_iff] at ht
      simp [ht]
    · rw [if_neg ht] at h
      simpa using processTags_dryRun_counts env repo tags 0 0 D F h

/-- Witness for C1 at the concrete registry `wEnv`: the dry-run cleanup of
`bdtemp-a` reports one deletion — the number of resolvable tags — and its
trace contains no DELETE request. -/
theorem dryRun_no_deletes_witness :
    deleteCount (cleanup_repository wEnv true "bdtemp-a").2 = 0 ∧
    (∃ tags, (list_tags wEnv "bdtemp-a").1 = .ok tags ∧
      1 = (tags.filter (fun t => resolvesDigest wEnv "bdtemp-a" t)).length) :=
  ⟨(dryRun_no_deletes wEnv "bdtemp-a" "bdtemp*" "d").2.1,
   (dryRun_no_deletes wEnv "bdtemp-a" "bdtemp*" "d").2.2.2 1 0 (by decide)⟩

/-! ### Counter lemmas for the tag loop -/

theorem processTags_sum (env : Env) (dry : Bool) (repo : String) (tags : List String) :
    ∀ deleted failed D F,
      (processTags env dry repo tags deleted failed).1 = .ok (D, F) →
      D + F = deleted + failed + tags.length := by
  induction tags with
  | nil =>
    intro d f D F h
    simp only [processTags] at h
    cases h
    simp
  | cons tag rest ih =>
    intro d f D F h
    simp only [processTags] at h
    cases hd : (get_manifest_digest env repo tag).1 with
    | error s => rw [hd] at h; cases h
    | ok o =>
      rw [hd] at h
      cases o with
      | none =>
        simp only at h
        have := ih d (f + 1) D F h
        simp only [List.length_cons]
        omega
      | some g =>
        simp only at h
        by_cases hdel : (delete_manifest env dry repo g).1
        · rw [if_pos hdel] at h
          have := ih (d + 1) f D F h
          simp only [List.length_cons]
          omega
        · rw [if_neg hdel] at h
          have := ih d (f + 1) D F h
          simp only [List.length_cons]
          omega

theorem processTags_shift (env : Env) (dry : Bool) (repo : String) (tags : List String) :
    ∀ deleted failed,
      (processTags env dry repo tags deleted failed).1 =
        (processTags env dry repo tags 0 0).1.map
          (fun p => (deleted + p.1, failed + p.2)) := by
  induction tags with
  | nil => intro d f; simp [processTags, Except.map]
  | cons tag rest ih =>
    intro d f
    simp only [processTags]
    cases hd : (get_manifest_digest env repo tag).1 with
    | error s => rfl
    | ok o =>
      cases o with
      | none =>
        simp only
        rw [ih d (f + 1), ih 0 1]
        cases hb : (processTags env dry repo rest 0 0).1 with
        | error s => rfl
        | ok p => simp [Except.map, Nat.add_comm]; omega
      | some g =>
        simp only
        by_cases hdel : (delete_manifest env dry repo g).1
        · rw [if_pos hdel, if_pos hdel, ih (d + 1) f, ih 1 0]
          cases hb : (processTags env dry repo rest 0 0).1 with
          | error s => rfl
          | ok p => simp [Except.map]; omega
        · rw [if_neg hdel, if_neg hdel, ih d (f + 1), ih 0 1]
          cases hb : (processTags env dry repo rest 0 0).1 with
          | error s => rfl
          | ok p => simp [Except.map]; omega

/-- C9: For every run of `cleanup_repository` that completes normally,
the sum of the returned deleted count and failed count equals the number
of tags returned by `list_tags` — each tag contributes exactly one to
exactly one of the two counters — and both counters are non-negative. -/
theorem cleanup_counts_partition (env : Env) (dry : Bool) (repo : String) (D F : Nat)
    (h : (cleanup_repository env dry repo).1 = .ok (D, F)) :
    ∃ tags, (list_tags env repo).1 = .ok tags ∧ D + F = tags.length ∧ 0 ≤ D ∧ 0 ≤ F := by
  simp only [cleanup_repository] at h
  cases hl : (list_tags env repo).1 with
  | error s => rw [hl] at h; cases h
  | ok tags =>
    rw [hl] at h
    simp only at h
    refine ⟨tags, rfl, ?_, Nat.zero_le D, Nat.zero_le F⟩
    by_cases ht : tags.isEmpty
    · rw [if_pos ht] at h
      cases h
      rw [List.isEmpty_iff] at ht
      simp [ht]
    · rw [if_neg ht] at h
      simpa using processTags_sum env dry repo tags 0 0 D F h

/-- Witness for C9 at `wEnv`: cleaning `bdtemp-a` (one tag) yields counts
summing to the tag count. -/
theorem cleanup_counts_partition_witness :
    ∃ tags, (list_tags wEnv "bdtemp-a").1 = .ok tags ∧
      1 + 0 = tags.length ∧ 0 ≤ 1 ∧ 0 ≤ 0 :=
  cleanup_counts_partition wEnv false "bdtemp-a" 1 0 (by decide)

/-- C7: `cleanup_repository` returns `(0, 0)` immediately when the tag
list is empty (for any mode, hence also when repeating a non-dry-run
cleanup against an already-empty repository — no errors, no further
requests), and otherwise processes the tags sequentially in registry
order: a tag whose digest resolution fails increments the failed count
and processing continues with the remaining tags, and a tag whose digest
resolves increments the deleted or the failed count according to the
deletion result. -/
theorem cleanup_repository_step_behavior (env : Env) (dry : Bool) (repo : String) :
    ((list_tags env repo).1 = .ok [] →
      cleanup_repository env dry repo = (.ok (0, 0), [Request.getTags repo])) ∧
    (∀ t rest, (list_tags env repo).1 = .ok (t :: rest) →
      ((get_manifest_digest env repo t).1 = .ok none →
        (cleanup_repository env dry repo).1 =
          (processTags env dry repo rest 0 0).1.map (fun p => (p.1, p.2 + 1))) ∧
      (∀ g, (get_manifest_digest env repo t).1 = .ok (some g) →
        ((delete_manifest env dry repo g).1 = true →
          (cleanup_repository env dry repo).1 =
            (processTags env dry repo rest 0 0).1.map (fun p => (p.1 + 1, p.2))) ∧
        ((delete_manifest env dry repo g).1 = false →
          (cleanup_repository env dry repo).1 =
            (processTags env dry repo rest 0 0).1.map (fun p => (p.1, p.2 + 1))))) := by
  constructor
  · intro hl
    simp only [cleanup_repository, hl, list_tags_snd, List.isEmpty_nil, if_true]
  · intro t rest hl
    have hres : (cleanup_repository env dry repo).1 =
        (processTags env dry repo (t :: rest) 0 0).1 := by
      simp only [cleanup_repository, hl, List.isEmpty_cons, if_false, Bool.false_eq_true]
    constructor
    · intro hdig
      rw [hres]
      simp only [processTags, hdig]
      rw [processTags_shift env dry repo rest 0 1]
      cases hb : (processTags env dry repo rest 0 0).1 with
      | error s => rfl
      | ok p => simp [Except.map, Nat.add_comm]
    · intro g hdig
      constructor
      · intro hdel
        rw [hres]
        simp only [processTags, hdig, hdel, if_true]
        rw [processTags_shift env dry repo rest 1 0]
        cases hb : (processTags env dry repo rest 0 0).1 with
        | error s => rfl
        | ok p => simp [Except.map, Nat.add_comm]
      · intro hdel
        rw [hres]
        simp only [processTags, hdig, hdel, if_false, Bool.false_eq_true]
        rw [processTags_shift env dry repo rest 0 1]
        cases hb : (processTags env dry repo rest 0 0).1 with
        | error s => rfl
        | ok p => simp [Except.map, Nat.add_comm]

/-- Witness for C7 at `wEnv`, non-dry-run: the empty repository `empty`
yields `(0, 0)` immediately; on `nodigest` (whose single tag has no
resolvable digest) the failed counter is incremented and the loop
continues over the remaining (zero) tags; on `bdtemp-a` (whose tag
resolves and deletes) the deleted counter is incremented. -/
theorem cleanup_repository_step_behavior_witness :
    cleanup_repository wEnv false "empty" = (.ok (0, 0), [Request.getTags "empty"]) ∧
    (cleanup_repository wEnv false "nodigest").1 =
      (processTags wEnv false "nodigest" [] 0 0).1.map (fun p => (p.1, p.2 + 1)) ∧
    (cleanup_repository wEnv false "bdtemp-a").1 =
      (processTags wEnv false "bdtemp-a" [] 0 0).1.map (fun p => (p.1 + 1, p.2)) :=
  ⟨(cleanup_repository_step_behavior wEnv false "empty").1 (by decide),
   ((cleanup_repository_step_behavior wEnv false "nodigest").2 "latest" [] (by decide)).1
     (by decide),
   (((cleanup_repository_step_behavior wEnv false "bdtemp-a").2 "latest" [] (by decide)).2
     "sha256:abc" (by decide)).1 (by decide)⟩

/-- C6: For every non-dry-run call, `delete_manifest` returns `true`
exactly when the registry answers 202 or 204; any other response status
or any network-level error yields `false`.  The function's return type is
`Bool × trace` — no exception channel — so a failed deletion can never
abort the batch; the trace records the single DELETE attempt. -/
theorem delete_manifest_success_iff (env : Env) (repo dig : String) :
    ((delete_manifest env false repo dig).1 = true ↔
      env.manifestDelete repo dig = .ok 202 ∨ env.manifestDelete repo dig = .ok 204) ∧
    (delete_manifest env false repo dig).2 = [Request.deleteManifest repo dig] := by
  cases h : env.manifestDelete repo dig <;>
    constructor <;> simp [delete_manifest, h]

/-- Witness for C6 at `delEnv`: a 204 answer yields success. -/
theorem delete_manifest_success_iff_witness :
    (delete_manifest delEnv false "ok204" "d").1 = true :=
  (delete_manifest_success_iff delEnv "ok204" "d").1.mpr (Or.inr (by decide))

/-- C3: For every non-dry-run invocation of
`cleanup_repositories_by_pattern` with at least one matching repository,
if the confirmation input lowercases to anything other than `yes`, the
operation returns the empty result mapping, the only request made is the
catalog GET, and zero DELETE calls are made. -/
theorem confirmation_gate_aborts (env : Env) (pattern : String)
    (hmatch : (list_repositories env).1.filter (fun r => regexMatches pattern r) ≠ [])
    (hconf : pyLower env.confirmInput.data ≠ "yes".data) :
    cleanup_repositories_by_pattern env false pattern = (.ok [], [Request.getCatalog]) ∧
    deleteCount (cleanup_repositories_by_pattern env false pattern).2 = 0 := by
  have hrepos : (list_repositories env).1 ≠ [] := by
    intro h
    exact hmatch (by rw [h]; rfl)
  have h1 : (list_repositories env).1.isEmpty = false := by
    rw [List.isEmpty_eq_false]; exact hrepos
  have h2 : ((list_repositories env).1.filter (fun r => regexMatches pattern r)).isEmpty
      = false := by
    rw [List.isEmpty_eq_false]; exact hmatch
  have hc : (pyLower env.confirmInput.data != "yes".data) = true := by
    simpa [bne_iff_ne] using hconf
  have heq : cleanup_repositories_by_pattern env false pattern
      = (.ok [], [Request.getCatalog]) := by
    simp only [cleanup_repositories_by_pattern, h1, h2, Bool.false_eq_true, if_false,
      Bool.not_false, Bool.true_and, hc, if_true, list_repositories_snd]
  exact ⟨heq, by rw [heq]; rfl⟩

/-- Witness for C3: at `wEnvNo` (confirmation input `No`) the pattern
`bdtemp*` matches two repositories yet the run aborts with an empty
mapping and no DELETE. -/
theorem confirmation_gate_aborts_witness :
    cleanup_repositories_by_pattern wEnvNo false "bdtemp*" = (.ok [], [Request.getCatalog]) ∧
    deleteCount (cleanup_repositories_by_pattern wEnvNo false "bdtemp*").2 = 0 :=
  confirmation_gate_aborts wEnvNo "bdtemp*" (by decide) (by decide)

theorem processRepos_ok (env : Env) (dry : Bool) (repos : List String) :
    ∀ res td tf, (processRepos env dry repos).1 = .ok (res, td, tf) →
      res.map Prod.fst = repos ∧
      (∀ x ∈ res, (cleanup_repository env dry x.1).1 = .ok x.2) ∧
      td = (res.map (fun x => x.2.1)).sum ∧
      tf = (res.map (fun x => x.2.2)).sum := by
  induction repos with
  | nil =>
    intro res td tf h
    simp only [processRepos] at h
    cases h
    simp
  | cons repo rest ih =>
    intro res td tf h
    simp only [processRepos] at h
    cases hr : (cleanup_repository env dry repo).1 with
    | error s => rw [hr] at h; cases h
    | ok p =>
      obtain ⟨pd, pf⟩ := p
      rw [hr] at h
      simp only at h
      cases hrest : (processRepos env dry rest).1 with
      | error s => rw [hrest] at h; cases h
      | ok q =>
        obtain ⟨results, td', tf'⟩ := q
        rw [hrest] at h
        simp only at h
        cases h
        obtain ⟨hmap, hall, htd, htf⟩ := ih results td' tf' hrest
        refine ⟨by simp [hmap], ?_, by simp [htd], by simp [htf]⟩
        intro x hx
        rcases List.mem_cons.mp hx with hx | hx
        · rw [hx]; exact hr
        · exact hall x hx

/-- C8: For every pattern, `cleanup_repositories_by_pattern` first lists
all repositories and filters them by the pattern; if the listing is empty
or zero repositories match, it returns an empty mapping immediately with
no side effects (the catalog GET is the only request — no digest lookups,
no deletions); otherwise — once past the confirmation gate, i.e. in
dry-run mode or with an affirmative confirmation — when the run returns a
mapping, that mapping has exactly the matched repositories as keys, in
catalog order, each bound to its `cleanup_repository` counts, and the
reported grand totals equal the sums of those per-repository counts. -/
theorem pattern_cleanup_structure (env : Env) (dry : Bool) (pattern : String) :
    ((list_repositories env).1 = [] →
      cleanup_repositories_by_pattern env dry pattern = (.ok [], [Request.getCatalog])) ∧
    ((list_repositories env).1.filter (fun r => regexMatches pattern r) = [] →
      cleanup_repositories_by_pattern env dry pattern = (.ok [], [Request.getCatalog])) ∧
    ((dry = true ∨ pyLower env.confirmInput.data = "yes".data) →
      ∀ results, (cleanup_repositories_by_pattern env dry pattern).1 = .ok results →
        ∃ td tf,
          (processRepos env dry
              ((list_repositories env).1.filter (fun r => regexMatches pattern r))).1 =
            .ok (results, td, tf) ∧
          results.map Prod.fst =
            (list_repositories env).1.filter (fun r => regexMatches pattern r) ∧
          (∀ x ∈ results, (cleanup_repository env dry x.1).1 = .ok x.2) ∧
          td = (results.map (fun x => x.2.1)).sum ∧
          tf = (results.map (fun x => x.2.2)).sum) := by
  refine ⟨?_, ?_, ?_⟩
  · intro h
    simp only [cleanup_repositories_by_pattern, h, List.isEmpty_nil, if_true,
      list_repositories_snd]
  · intro h
    by_cases h0 : (list_repositories env).1.isEmpty
    · simp only [cleanup_repositories_by_pattern, h0, if_true, list_repositories_snd]
    · simp only [cleanup_repositories_by_pattern, h0, h, Bool.false_eq_true, if_false,
        List.isEmpty_nil, if_true, list_repositories_snd]
  · intro hgate results h
    by_cases h0 : (list_repositories env).1.isEmpty
    · simp only [cleanup_repositories_by_pattern, h0, if_true] at h
      cases h
      have hm : (list_repositories env).1.filter (fun r => regexMatches pattern r) = [] := by
        rw [List.isEmpty_iff] at h0
        rw [h0]; rfl
      exact ⟨0, 0, by rw [hm]; rfl, by rw [hm]; rfl, by simp, rfl, rfl⟩
    · by_cases h1 : ((list_repositories env).1.filter (fun r => regexMatches pattern r)).isEmpty
      · simp only [cleanup_repositories_by_pattern, h0, h1, Bool.false_eq_true, if_false,
          if_true] at h
        cases h
        have hm := List.isEmpty_iff.mp h1
        exact ⟨0, 0, by rw [hm]; rfl, by rw [hm]; rfl, by simp, rfl, rfl⟩
      · have hcond : (!dry && pyLower env.confirmInput.data != "yes".data) = false := by
          rcases hgate with hg | hg
          · rw [hg]; rfl
          · simp [hg]
        simp only [cleanup_repositories_by_pattern, h0, h1, hcond, Bool.false_eq_true,
          if_false] at h
        cases hp : (processRepos env dry
            ((list_repositories env).1.filter (fun r => regexMatches pattern r))).1 with
        | error s => rw [hp] at h; cases h
        | ok q =>
          obtain ⟨res, td, tf⟩ := q
          rw [hp] at h
          simp only at h
          cases h
          obtain ⟨hmap, hall, htd, htf⟩ := processRepos_ok env dry _ results td tf hp
          exact ⟨td, tf, rfl, hmap, hall, htd, htf⟩

/-- Witness for C8 at `wEnv`: the pattern `bdtemp*` matches `bdtemp-a`
and `bdtemp-b` (not `keep`); each is cleaned to `(1, 0)`, the keys and
order follow the catalog, and the totals are the sums. -/
theorem pattern_cleanup_structure_witness :
    ∃ td tf,
      (processRepos wEnv false
          ((list_repositories wEnv).1.filter (fun r => regexMatches "bdtemp*" r))).1 =
        .ok ([("bdtemp-a", 1, 0), ("bdtemp-b", 1, 0)], td, tf) ∧
      [("bdtemp-a", (1 : Nat), (0 : Nat)), ("bdtemp-b", 1, 0)].map Prod.fst =
        (list_repositories wEnv).1.filter (fun r => regexMatches "bdtemp*" r) ∧
      (∀ x ∈ [("bdtemp-a", (1 : Nat), (0 : Nat)), ("bdtemp-b", 1, 0)],
        (cleanup_repository wEnv false x.1).1 = .ok x.2) ∧
      td = ([("bdtemp-a", (1 : Nat), (0 : Nat)), ("bdtemp-b", 1, 0)].map
        (fun x => x.2.1)).sum ∧
      tf = ([("bdtemp-a", (1 : Nat), (0 : Nat)), ("bdtemp-b", 1, 0)].map
        (fun x => x.2.2)).sum :=
  (pattern_cleanup_structure wEnv false "bdtemp*").2.2 (Or.inr (by decide))
    [("bdtemp-a", 1, 0), ("bdtemp-b", 1, 0)] (by decide)

/-- Counterexample to C4 as stated: `list_tags` does not return the empty
sequence on every non-404 failure — at `wEnv` the repository `boom`
answers HTTP 500 on tag listing and `list_tags` propagates the error
(the bare `raise` on line 102 escapes the surrounding `try`). -/
theorem list_tags_propagates_http_error :
    (list_tags wEnv "boom").1 = .error 500 ∧
    (list_tags wEnv "boom").1 ≠ .ok [] ∧
    (cleanup_repository wEnv false "boom").1 = .error 500 := by decide

/-- C4 (amended): `list_tags` returns the empty sequence when the
tag-list endpoint answers HTTP 404 (repository absent) and on any
non-HTTP failure; an HTTP error with any other status propagates to the
caller.  On a 404 repository, `cleanup_repository` returns `(0, 0)` with
the tag-list GET as its only request — in particular no DELETE calls. -/
theorem list_tags_error_handling (env : Env) (dry : Bool) (repo : String) :
    (env.tags repo = .httpError 404 →
      list_tags env repo = (.ok [], [Request.getTags repo]) ∧
      cleanup_repository env dry repo = (.ok (0, 0), [Request.getTags repo])) ∧
    (env.tags repo = .netError →
      list_tags env repo = (.ok [], [Request.getTags repo])) ∧
    (∀ s, s ≠ 404 → env.tags repo = .httpError s →
      (list_tags env repo).1 = .error s) := by
  refine ⟨?_, ?_, ?_⟩
  · intro h
    have hl : list_tags env repo = (.ok [], [Request.getTags repo]) := by
      simp [list_tags, h]
    have h1 : (list_tags env repo).1 = .ok [] := by rw [hl]
    refine ⟨hl, ?_⟩
    simp only [cleanup_repository, h1, List.isEmpty_nil, if_true, list_tags_snd]
  · intro h
    simp [list_tags, h]
  · intro s hs h
    simp [list_tags, h, hs]

/-- Witness for the amended C4 at `wEnv`: `ghost` 404s and is cleaned to
`(0, 0)` with only the tag-list GET; `boom` answers 500 and the error
propagates. -/
theorem list_tags_error_handling_witness :
    cleanup_repository wEnv false "ghost" = (.ok (0, 0), [Request.getTags "ghost"]) ∧
    (list_tags wEnv "boom").1 = .error 500 :=
  ⟨((list_tags_error_handling wEnv false "ghost").1 (by decide)).2,
   (list_tags_error_handling wEnv false "boom").2.2 500 (by decide) (by decide)⟩

/-- Counterexample to C5 as stated: digest resolution does not always
end in a digest or `none` — at `cEnv500` the schema2 probe answers
HTTP 500 and `get_manifest_digest` propagates the error without trying
the remaining media types, even though the schema1 probe would have
carried a digest. -/
theorem digest_lookup_propagates_http_error :
    (get_manifest_digest cEnv500 "r" "t").1 = .error 500 ∧
    cEnv500.manifestHead "r" "t" schema1Type = .ok (some "sha256:x") ∧
    (get_manifest_digest cEnv500 "r" "t").1 ≠ .ok (some "sha256:x") ∧
    (get_manifest_digest cEnv500 "r" "t").1 ≠ .ok none := by decide

theorem tryManifestTypes_skip (env : Env) (repo tag t : String) (ts : List String)
    (h : headSkips (env.manifestHead repo tag t)) :
    tryManifestTypes env repo tag (t :: ts) =
      ((tryManifestTypes env repo tag ts).1,
       Request.headManifest repo tag t :: (tryManifestTypes env repo tag ts).2) := by
  have he : "".isEmpty = true := rfl
  rcases h with h | h | h | h <;> simp [tryManifestTypes, h, he]

theorem tryManifestTypes_hit (env : Env) (repo tag t : String) (ts : List String)
    (d : String) (h : env.manifestHead repo tag t = .ok (some d))
    (hd : d.isEmpty = false) :
    tryManifestTypes env repo tag (t :: ts) =
      (.ok (some d), [Request.headManifest repo tag t]) := by
  simp [tryManifestTypes, h, hd]

/-- C5 (amended): `get_manifest_digest` probes the media types in the
fixed order schema2, schema1, OCI via HEAD requests and returns the
digest of the first type whose response carries a non-empty
`Docker-Content-Digest` header, skipping a type on a 404, on a non-HTTP
failure, or when the header is absent or empty; it returns `none` when
all three types were attempted without yielding a digest.  (As the
counterexample shows, a non-404 HTTP error is propagated instead of
being skipped.) -/
theorem digest_fallback_order (env : Env) (repo tag : String) :
    (∀ d, env.manifestHead repo tag schema2Type = .ok (some d) → d.isEmpty = false →
      get_manifest_digest env repo tag =
        (.ok (some d), [Request.headManifest repo tag schema2Type])) ∧
    (headSkips (env.manifestHead repo tag schema2Type) →
      (∀ d, env.manifestHead repo tag schema1Type = .ok (some d) → d.isEmpty = false →
        get_manifest_digest env repo tag =
          (.ok (some d),
           [Request.headManifest repo tag schema2Type,
            Request.headManifest repo tag schema1Type])) ∧
      (headSkips (env.manifestHead repo tag schema1Type) →
        (∀ d, env.manifestHead repo tag ociType = .ok (some d) → d.isEmpty = false →
          get_manifest_digest env repo tag =
            (.ok (some d),
             [Request.headManifest repo tag schema2Type,
              Request.headManifest repo tag schema1Type,
              Request.headManifest repo tag ociType])) ∧
        (headSkips (env.manifestHead repo tag ociType) →
          get_manifest_digest env repo tag =
            (.ok none,
             [Request.headManifest repo tag schema2Type,
              Request.headManifest repo tag schema1Type,
              Request.headManifest repo tag ociType])))) ∧
    (∀ s, s ≠ 404 → env.manifestHead repo tag schema2Type = .httpError s →
      (get_manifest_digest env repo tag).1 = .error s) := by
  refine ⟨?_, ?_, ?_⟩
  · intro d h hd
    simp only [get_manifest_digest, manifest_types]
    rw [tryManifestTypes_hit env repo tag schema2Type _ d h hd]
  · intro h2
    constructor
    · intro d h hd
      simp only [get_manifest_digest, manifest_types]
      rw [tryManifestTypes_skip env repo tag schema2Type _ h2,
        tryManifestTypes_hit env repo tag schema1Type _ d h hd]
    · intro h1
      constructor
      · intro d h hd
        simp only [get_manifest_digest, manifest_types]
        rw [tryManifestTypes_skip env repo tag schema2Type _ h2,
          tryManifestTypes_skip env repo tag schema1Type _ h1,
          tryManifestTypes_hit env repo tag ociType _ d h hd]
      · intro h0
        simp only [get_manifest_digest, manifest_types]
        rw [tryManifestTypes_skip env repo tag schema2Type _ h2,
          tryManifestTypes_skip env repo tag schema1Type _ h1,
          tryManifestTypes_skip env repo tag ociType _ h0]
        rfl
  · intro s hs h
    simp [get_manifest_digest, manifest_types, tryManifestTypes, h, hs]

/-- Witness for the amended C5: at `wEnv` only the second media type
(schema1) answers with a digest — the schema2 probe 404s — and that
digest is returned; at `skipEnv` all three types are skipped and the
lookup returns `none`. -/
theorem digest_fallback_order_witness :
    get_manifest_digest wEnv "bdtemp-a" "latest" =
      (.ok (some "sha256:abc"),
       [Request.headManifest "bdtemp-a" "latest" schema2Type,
        Request.headManifest "bdtemp-a" "latest" schema1Type]) ∧
    get_manifest_digest skipEnv "r" "t" =
      (.ok none,
       [Request.headManifest "r" "t" schema2Type,
        Request.headManifest "r" "t" schema1Type,
        Request.headManifest "r" "t" ociType]) :=
  ⟨((digest_fallback_order wEnv "bdtemp-a" "latest").2.1 (Or.inl (by decide))).1
      "sha256:abc" (by decide) (by decide),
   (((digest_fallback_order skipEnv "r" "t").2.1 (Or.inl (by decide))).2
      (Or.inr (Or.inr (Or.inl (by decide))))).2 (Or.inr (Or.inl (by decide)))⟩

/-! ### Relating the code's anchored `re.match` to `re.fullmatch` -/

theorem starSkip_eq (f g : List Char → Bool)
    (hfg : ∀ l, f l = (g l || (endsNewline l && g l.dropLast))) :
    ∀ s, starSkip f s = (starSkip g s || (endsNewline s && starSkip g s.dropLast)) := by
  intro s
  induction s with
  | nil =>
    have h0 := hfg []
    simp only [endsNewline, Bool.false_and, Bool.or_false] at h0
    simp [starSkip, h0, endsNewline]
  | cons x xs ihs =>
    rcases xs with _ | ⟨y, t⟩
    · have h0 := hfg []
      simp only [endsNewline, Bool.false_and, Bool.or_false] at h0
      have h1 := hfg [x]
      simp only [endsNewline, List.dropLast_single] at h1
      calc starSkip f [x]
          = (f [x] || (x != '\n' && f [])) := rfl
        _ = ((g [x] || ((x == '\n') && g [])) || (x != '\n' && g [])) := by
              rw [h0, h1]
        _ = ((g [x] || (x != '\n' && g [])) || ((x == '\n') && g [])) := by
              simp only [bne]
              cases (x == '\n') <;> cases g [x] <;> cases g [] <;> rfl
        _ = (starSkip g [x] || (endsNewline [x] && starSkip g [x].dropLast)) := rfl
    · have h1 := hfg (x :: y :: t)
      simp only [endsNewline, List.dropLast_cons₂] at h1
      calc starSkip f (x :: y :: t)
          = (f (x :: y :: t) || (x != '\n' && starSkip f (y :: t))) := rfl
        _ = ((g (x :: y :: t) || (endsNewline (y :: t) && g (x :: (y :: t).dropLast))) ||
              (x != '\n' &&
                (starSkip g (y :: t) ||
                  (endsNewline (y :: t) && starSkip g ((y :: t).dropLast))))) := by
              rw [h1, ihs]
        _ = ((g (x :: y :: t) || (x != '\n' && starSkip g (y :: t))) ||
              (endsNewline (y :: t) &&
                (g (x :: (y :: t).dropLast) ||
                  (x != '\n' && starSkip g ((y :: t).dropLast))))) := by
              cases g (x :: y :: t) <;> cases endsNewline (y :: t) <;>
                cases g (x :: (y :: t).dropLast) <;> cases (x != '\n') <;>
                cases starSkip g (y :: t) <;> cases starSkip g ((y :: t).dropLast) <;> rfl
        _ = (starSkip g (x :: y :: t) ||
              (endsNewline (x :: y :: t) && starSkip g ((x :: y :: t).dropLast))) := rfl

theorem matchAnch_eq_fullmatch (as : List Atom) :
    ∀ s, matchAnch as s =
      (reFullmatch as s || (endsNewline s && reFullmatch as s.dropLast)) := by
  induction as with
  | nil =>
    intro s
    rcases s with _ | ⟨c, _ | ⟨d, t⟩⟩
    · rfl
    · simp [matchAnch, reFullmatch, endsNewline]
    · simp [matchAnch, reFullmatch, endsNewline, List.dropLast_cons₂]
  | cons a as ih =>
    cases a with
    | lit c =>
      intro s
      rcases s with _ | ⟨x, _ | ⟨y, t⟩⟩
      · simp [matchAnch, reFullmatch, endsNewline]
      · have h0 := ih []
        simp only [endsNewline, Bool.false_and, Bool.or_false] at h0
        calc matchAnch (.lit c :: as) [x]
            = ((x == c) && matchAnch as []) := rfl
          _ = ((x == c) && reFullmatch as []) := by rw [h0]
          _ = (((x == c) && reFullmatch as []) || ((x == '\n') && false)) := by
                cases (x == c) <;> cases (x == '\n') <;> cases reFullmatch as [] <;> rfl
          _ = (reFullmatch (.lit c :: as) [x] ||
                (endsNewline [x] && reFullmatch (.lit c :: as) [x].dropLast)) := rfl
      · have h1 := ih (y :: t)
        calc matchAnch (.lit c :: as) (x :: y :: t)
            = ((x == c) && matchAnch as (y :: t)) := rfl
          _ = ((x == c) &&
                (reFullmatch as (y :: t) ||
                  (endsNewline (y :: t) && reFullmatch as ((y :: t).dropLast)))) := by
                rw [h1]
          _ = (((x == c) && reFullmatch as (y :: t)) ||
                (endsNewline (y :: t) &&
                  ((x == c) && reFullmatch as ((y :: t).dropLast)))) := by
                cases (x == c) <;> cases reFullmatch as (y :: t) <;>
                  cases endsNewline (y :: t) <;>
                  cases reFullmatch as ((y :: t).dropLast) <;> rfl
          _ = (reFullmatch (.lit c :: as) (x :: y :: t) ||
                (endsNewline (x :: y :: t) &&
                  reFullmatch (.lit c :: as) ((x :: y :: t).dropLast))) := rfl
    | dot =>
      intro s
      rcases s with _ | ⟨x, _ | ⟨y, t⟩⟩
      · simp [matchAnch, reFullmatch, endsNewline]
      · have h0 := ih []
        simp only [endsNewline, Bool.false_and, Bool.or_false] at h0
        calc matchAnch (.dot :: as) [x]
            = ((x != '\n') && matchAnch as []) := rfl
          _ = ((x != '\n') && reFullmatch as []) := by rw [h0]
          _ = (((x != '\n') && reFullmatch as []) || ((x == '\n') && false)) := by
                simp only [bne]
                cases (x == '\n') <;> cases reFullmatch as [] <;> rfl
          _ = (reFullmatch (.dot :: as) [x] ||
                (endsNewline [x] && reFullmatch (.dot :: as) [x].dropLast)) := rfl
      · have h1 := ih (y :: t)
        calc matchAnch (.dot :: as) (x :: y :: t)
            = ((x != '\n') && matchAnch as (y :: t)) := rfl
          _ = ((x != '\n') &&
                (reFullmatch as (y :: t) ||
                  (endsNewline (y :: t) && reFullmatch as ((y :: t).dropLast)))) := by
                rw [h1]
          _ = (((x != '\n') && reFullmatch as (y :: t)) ||
                (endsNewline (y :: t) &&
                  ((x != '\n') && reFullmatch as ((y :: t).dropLast)))) := by
                cases (x != '\n') <;> cases reFullmatch as (y :: t) <;>
                  cases endsNewline (y :: t) <;>
                  cases reFullmatch as ((y :: t).dropLast) <;> rfl
          _ = (reFullmatch (.dot :: as) (x :: y :: t) ||
                (endsNewline (x :: y :: t) &&
                  reFullmatch (.dot :: as) ((x :: y :: t).dropLast))) := rfl
    | star =>
      intro s
      exact starSkip_eq (matchAnch as) (reFullmatch as) ih s

/-- Counterexample to C2 as stated: acceptance is not exactly
`re.fullmatch` of the translated pattern.  The compiled pattern is
`^bdtemp.*$` tested with `re.match`, and Python's `$` also matches just
before a newline that ends the string: the repository name
`"bdtemp\n"` is accepted although it does not fullmatch the
translation. -/
theorem match_vs_fullmatch_trailing_newline :
    regexMatches "bdtemp*" "bdtemp\n" = true ∧
    reFullmatch (parseRegex (regex_pattern "bdtemp*".data)) "bdtemp\n".data = false := by
  decide

/-- C2 (amended): for every pattern (built from literal characters and
the wildcards `*` and `?`, with no other regex metacharacter) and every
repository name, the match routine accepts the name iff the name — or,
when the name ends with a newline, the name without that final newline —
fullmatches the glob-to-regex translation of the pattern; matching is
anchored to the entire repository name, so `bdtemp*` accepts `bdtemp` and
`bdtemp-1` but not `xbdtemp1`. -/
theorem regexMatches_fullmatch_characterization (pattern repo : String) :
    regexMatches pattern repo =
      (reFullmatch (parseRegex (regex_pattern pattern.data)) repo.data ||
        (endsNewline repo.data &&
          reFullmatch (parseRegex (regex_pattern pattern.data)) repo.data.dropLast)) ∧
    regexMatches "bdtemp*" "bdtemp" = true ∧
    regexMatches "bdtemp*" "bdtemp-1" = true ∧
    regexMatches "bdtemp*" "xbdtemp1" = false :=
  ⟨matchAnch_eq_fullmatch (parseRegex (regex_pattern pattern.data)) repo.data,
   by decide, by decide, by decide⟩

/-- C10: the glob-to-regex translation rewrites only `*` (to `.*`) and
`?` (to `.`) and does not escape other regex metacharacters, so a `.` in
the pattern acts as a regex wildcard: pattern `a.b` accepts `axb`, which
the literal shell glob rejects; and `*` matches across `/`, so `bdtemp*`
accepts `bdtemp/sub`. -/
theorem glob_translation_unescaped_metachars :
    regex_pattern "a.b".data = "a.b".data ∧
    regex_pattern "a*b?".data = "a.*b.".data ∧
    regexMatches "a.b" "axb" = true ∧
    specGlobMatch "a.b".data "axb".data = false ∧
    specGlobMatch "a.b".data "a.b".data = true ∧
    regexMatches "bdtemp*" "bdtemp/sub" = true := by
  decide

end RegCleanup
